import Mathlib

/-!
Shallow embedding of `profile.py`, a POWDER portal profile that translates
user parameters (radio selections, frequency bounds, options) into a
resource-request graph (nodes, links, interfaces, storage mounts, spectrum
reservations).

Frequencies are modelled as exact rationals (the host rounds inputs to the
nearest kilohertz; we model the idealized arithmetic of the comparisons in
the script).  The request object mutated in place by the Python script is
modelled by explicit state passing: each builder takes the request
accumulated so far and returns the request with its additions appended, in
the order the Python code registers them.
-/

namespace Profile

/- Constants of the GLOBALS class in profile.py. -/
namespace GLOBALS

def SRSLTE_IMG : String := "urn:publicid:IDN+emulab.net+image+PowderTeam:U18LL-SRSLTE"

def SRSLTE_SRC_DS : String := "urn:publicid:IDN+emulab.net:powderteam+imdataset+srslte-src-v19"

def DLDEFLOFREQ : ℚ := 2620

def DLDEFHIFREQ : ℚ := 2630

def ULDEFLOFREQ : ℚ := 2500

def ULDEFHIFREQ : ℚ := 2510

end GLOBALS

/-- One entry of the `x310_radios` multi-value struct parameter: a selected
rooftop base-station X310, referenced by radio name. -/
structure X310Radio where
  radio_name : String
  deriving DecidableEq, Repr

/-- One entry of the `b210_nodes` multi-value struct parameter: a selected
fixed-endpoint site, referenced by aggregate id. -/
structure B210Node where
  aggregate_id : String
  deriving DecidableEq, Repr

/-- The bound parameter set (`params = portal.context.bindParameters()`). -/
structure Params where
  include_srslte_src : Bool
  x310_pair_nodetype : String
  x310_radios : List X310Radio
  b210_nodes : List B210Node
  ul_freq_min : ℚ
  ul_freq_max : ℚ
  dl_freq_min : ℚ
  dl_freq_max : ℚ
  deriving DecidableEq, Repr

/-- A `portal.ParameterError(message, field_list)` record. -/
structure ParameterError where
  message : String
  fields : List String
  deriving DecidableEq, Repr

/-- An `rspec.Execute(shell, command)` startup service. -/
structure Service where
  shell : String
  command : String
  deriving DecidableEq, Repr

/-- A `node.Blockstore(name, mountpoint)` with its `dataset` field: one
storage mount. -/
structure Blockstore where
  name : String
  mountpoint : String
  dataset : String
  deriving DecidableEq, Repr

/-- An `rspec.IPv4Address(address, netmask)`. -/
structure IPv4Address where
  address : String
  netmask : String
  deriving DecidableEq, Repr

/-- A node interface (`node.addInterface(name)`) with the addresses added to
it by `addAddress`. -/
structure NodeInterface where
  name : String
  addresses : List IPv4Address
  deriving DecidableEq, Repr

/-- A `request.RawPC(name)` node with the attribute assignments the two
builders perform on it. -/
structure Node where
  name : String
  hardware_type : Option String := none
  disk_image : Option String := none
  component_manager_id : Option String := none
  component_id : Option String := none
  services : List Service := []
  blockstores : List Blockstore := []
  interfaces : List NodeInterface := []
  deriving DecidableEq, Repr

/-- A `request.Link(name)` with its bandwidth, the interfaces added by
`addInterface` and the node names added by `addNode`. -/
structure Link where
  name : String
  bandwidth : Nat
  interfaces : List NodeInterface := []
  nodes : List String := []
  deriving DecidableEq, Repr

/-- A `request.requestSpectrum(freq_min, freq_max, priority)` reservation. -/
structure SpectrumReservation where
  freq_min : ℚ
  freq_max : ℚ
  priority : ℤ
  deriving DecidableEq, Repr

/-- The request RSpec being assembled: the collections that
`request.RawPC`, `request.Link` and `request.requestSpectrum` append to. -/
structure Request where
  nodes : List Node := []
  links : List Link := []
  spectrum : List SpectrumReservation := []
  deriving DecidableEq, Repr

/-- The compute node built by `x310_node_pair`: `"<radio_name>-comp"`, with
the selected hardware type, the srsLTE disk image, four startup services, an
optional source-code mount, and the `usrp_if` interface carrying the static
address `192.168.40.1/255.255.255.0`. -/
def x310CompNode (params : Params) (idx : Nat) (x310_radio : X310Radio) : Node :=
  { name := x310_radio.radio_name ++ "-comp"
    hardware_type := some params.x310_pair_nodetype
    disk_image := some GLOBALS.SRSLTE_IMG
    component_manager_id := some "urn:publicid:IDN+emulab.net+authority+cm"
    services :=
      [⟨"bash", "/local/repository/bin/add-nat-and-ip-forwarding.sh"⟩,
       ⟨"bash", "/local/repository/bin/update-config-files.sh"⟩,
       ⟨"bash", "/local/repository/bin/tune-cpu.sh"⟩,
       ⟨"bash", "/local/repository/bin/tune-sdr-iface.sh"⟩]
    blockstores :=
      if params.include_srslte_src then
        [⟨"bs-comp-" ++ toString idx, "/opt/srslte", GLOBALS.SRSLTE_SRC_DS⟩]
      else []
    interfaces := [⟨"usrp_if", [⟨"192.168.40.1", "255.255.255.0"⟩]⟩] }

/-- The radio node built by `x310_node_pair`: `"<radio_name>-x310"`, bound to
the physical component of the same name. -/
def x310RadioNode (x310_radio : X310Radio) : Node :=
  { name := x310_radio.radio_name ++ "-x310"
    component_id := some x310_radio.radio_name
    component_manager_id := some "urn:publicid:IDN+emulab.net+authority+cm" }

/-- The link built by `x310_node_pair`: `"radio-link-<idx>"` at 10 Mbps,
carrying the compute node's `usrp_if` interface and the radio node. -/
def x310RadioLink (idx : Nat) (x310_radio : X310Radio) : Link :=
  { name := "radio-link-" ++ toString idx
    bandwidth := 10 * 1000 * 1000
    interfaces := [⟨"usrp_if", [⟨"192.168.40.1", "255.255.255.0"⟩]⟩]
    nodes := [x310_radio.radio_name ++ "-x310"] }

/-- `x310_node_pair(idx, x310_radio)`: registers on the request one link, the
compute node and the radio node, in the order the Python code creates them. -/
def x310_node_pair (params : Params) (idx : Nat) (x310_radio : X310Radio)
    (request : Request) : Request :=
  { request with
    nodes := request.nodes ++ [x310CompNode params idx x310_radio, x310RadioNode x310_radio]
    links := request.links ++ [x310RadioLink idx x310_radio] }

/-- The fixed-endpoint compute node built by `b210_nuc_pair`:
`"b210-<aggregate_id>-nuc2"`, managed by the site's aggregate, component
`nuc2`, srsLTE disk image, two startup services and an optional source-code
mount.  It has no interfaces and no addresses. -/
def b210NucNode (params : Params) (idx : Nat) (b210_node : B210Node) : Node :=
  { name := "b210-" ++ b210_node.aggregate_id ++ "-nuc2"
    component_manager_id :=
      some ("urn:publicid:IDN+" ++ b210_node.aggregate_id ++ ".powderwireless.net+authority+cm")
    component_id := some "nuc2"
    disk_image := some GLOBALS.SRSLTE_IMG
    services :=
      [⟨"bash", "/local/repository/bin/update-config-files.sh"⟩,
       ⟨"bash", "/local/repository/bin/tune-cpu.sh"⟩]
    blockstores :=
      if params.include_srslte_src then
        [⟨"bs-nuc-" ++ toString idx, "/opt/srslte", GLOBALS.SRSLTE_SRC_DS⟩]
      else [] }

/-- `b210_nuc_pair(idx, b210_node)`: registers the single fixed-endpoint
compute node on the request.  No radio node and no link are created. -/
def b210_nuc_pair (params : Params) (idx : Nat) (b210_node : B210Node)
    (request : Request) : Request :=
  { request with nodes := request.nodes ++ [b210NucNode params idx b210_node] }

/-- `request.requestSpectrum(freq_min, freq_max, priority)`: appends one
spectrum reservation. -/
def requestSpectrum (request : Request) (freq_min freq_max : ℚ) (priority : ℤ) :
    Request :=
  { request with spectrum := request.spectrum ++ [⟨freq_min, freq_max, priority⟩] }

/-- The error reported when an uplink bound is out of band (line 333). -/
def ulBandErr : ParameterError :=
  ⟨"Band 7 uplink frequencies must be between 2500 and 2570 MHz",
   ["ul_freq_min", "ul_freq_max"]⟩

/-- The error reported when the uplink bounds are separated by less than
1 MHz (line 336). -/
def ulSepErr : ParameterError :=
  ⟨"Minimum and maximum frequencies must be separated by at least 1 MHz",
   ["ul_freq_min", "ul_freq_max"]⟩

/-- The error reported when a downlink bound is out of band (line 340). -/
def dlBandErr : ParameterError :=
  ⟨"Band 7 downlink frequencies must be between 2620 and 2690 MHz",
   ["dl_freq_min", "dl_freq_max"]⟩

/-- The error reported when the downlink bounds are separated by less than
1 MHz (line 343). -/
def dlSepErr : ParameterError :=
  ⟨"Minimum and maximum frequencies must be separated by at least 1 MHz",
   ["dl_freq_min", "dl_freq_max"]⟩

/-- The four frequency checks of `profile.py` (lines 331-344): each violated
check appends its own `portal.context.reportError(perr)` record; none of them
short-circuits the others. -/
def checkFrequencyParams (params : Params) : List ParameterError :=
  (if params.ul_freq_min < 2500 ∨ params.ul_freq_min > 2570
      ∨ params.ul_freq_max < 2500 ∨ params.ul_freq_max > 2570 then
    [ulBandErr]
  else []) ++
  (if params.ul_freq_max - params.ul_freq_min < 1 then
    [ulSepErr]
  else []) ++
  (if params.dl_freq_min < 2620 ∨ params.dl_freq_min > 2690
      ∨ params.dl_freq_max < 2620 ∨ params.dl_freq_max > 2690 then
    [dlBandErr]
  else []) ++
  (if params.dl_freq_max - params.dl_freq_min < 1 then
    [dlSepErr]
  else [])

/-- The assembly phase of `profile.py` (lines 350-359): starting from the
fresh request of `makeRequestRSpec()`, invoke `x310_node_pair` once per
selected rooftop radio with `enumerate` indices, then `b210_nuc_pair` once
per selected fixed-endpoint site with `enumerate` indices, then request the
uplink and the downlink spectrum ranges at priority 0. -/
def assembleRequest (params : Params) : Request :=
  let request : Request := {}
  let request := params.x310_radios.enum.foldl
    (fun req q => x310_node_pair params q.1 q.2 req) request
  let request := params.b210_nodes.enum.foldl
    (fun req q => b210_nuc_pair params q.1 q.2 req) request
  let request := requestSpectrum request params.ul_freq_min params.ul_freq_max 0
  requestSpectrum request params.dl_freq_min params.dl_freq_max 0

/-- Modelled from the spec: `portal.context.verifyParameters()` (portal
library code, not part of this repository) returns control to the host for
reporting when any parameter error was reported, so the run does not proceed
to assembly; otherwise the script assembles and emits the request.  The whole
run of `profile.py` after parameter binding. -/
def runProfile (params : Params) : Except (List ParameterError) Request :=
  let errors := checkFrequencyParams params
  if errors.isEmpty then Except.ok (assembleRequest params)
  else Except.error errors

/-- The default parameter binding declared by the `defineParameter` /
`defineStructParameter` calls: no source mount, first node type `d740`,
empty selection lists, default Band 7 frequency bounds. -/
def defaultParams : Params :=
  { include_srslte_src := false
    x310_pair_nodetype := "d740"
    x310_radios := []
    b210_nodes := []
    ul_freq_min := GLOBALS.ULDEFLOFREQ
    ul_freq_max := GLOBALS.ULDEFHIFREQ
    dl_freq_min := GLOBALS.DLDEFLOFREQ
    dl_freq_max := GLOBALS.DLDEFHIFREQ }

/-- A parameter set with the same rooftop radio selected twice: the portal
accepts it (only frequency bounds are validated), yet it duplicates node
names. -/
def dupRadioParams : Params :=
  { defaultParams with
    x310_radios := [⟨"cellsdr1-browning"⟩, ⟨"cellsdr1-browning"⟩] }

/-- A parameter set violating all four frequency checks at once: both uplink
bounds below 2500, both downlink bounds below 2620, and both pairs inverted
(max below min). -/
def allBadParams : Params :=
  { defaultParams with
    ul_freq_min := 2400
    ul_freq_max := 2300
    dl_freq_min := 2600
    dl_freq_max := 2500 }

/-- The concrete selection of the spec's worked example: one rooftop radio
"cellsdr1-browning" and one fixed-endpoint site "web". -/
def examplePairParams : Params :=
  { defaultParams with
    x310_radios := [⟨"cellsdr1-browning"⟩]
    b210_nodes := [⟨"web"⟩] }

/-- A parameter set with one uplink bound and one downlink bound out of band
(used to exercise the band checks). -/
def outOfBandParams : Params :=
  { defaultParams with
    ul_freq_min := 2400
    ul_freq_max := 2510
    dl_freq_min := 2600
    dl_freq_max := 2630 }

/-- Folding the rooftop builder over an indexed radio list appends, per
entry, the compute node and the radio node to the node list and the radio
link to the link list; the spectrum list is untouched. -/
theorem x310_foldl (ps : Params) (l : List (Nat × X310Radio)) :
    ∀ req : Request,
      l.foldl (fun r q => x310_node_pair ps q.1 q.2 r) req =
        { req with
          nodes := req.nodes ++ l.flatMap fun q => [x310CompNode ps q.1 q.2, x310RadioNode q.2]
          links := req.links ++ l.map fun q => x310RadioLink q.1 q.2 } := by
  induction l with
  | nil => intro req; simp
  | cons q l ih =>
    intro req
    rw [List.foldl_cons, ih]
    simp [x310_node_pair]

/-- Folding the fixed-endpoint builder over an indexed site list appends one
compute node per entry; links and spectrum are untouched. -/
theorem b210_foldl (ps : Params) (l : List (Nat × B210Node)) :
    ∀ req : Request,
      l.foldl (fun r q => b210_nuc_pair ps q.1 q.2 r) req =
        { req with
          nodes := req.nodes ++ l.map fun q => b210NucNode ps q.1 q.2 } := by
  induction l with
  | nil => intro req; simp
  | cons q l ih =>
    intro req
    rw [List.foldl_cons, ih]
    simp [b210_nuc_pair]

/-- Closed form of the assembly phase: rooftop compute/radio node pairs in
input order with indices 0, 1, 2, ..., then fixed-endpoint nodes in input
order with indices restarting at 0; one link per rooftop pair; the uplink
and then the downlink spectrum reservation, both at priority 0. -/
theorem assembleRequest_closed_form (p : Params) :
    assembleRequest p =
      { nodes := (p.x310_radios.enum.flatMap fun q =>
                    [x310CompNode p q.1 q.2, x310RadioNode q.2])
                  ++ p.b210_nodes.enum.map fun q => b210NucNode p q.1 q.2
        links := p.x310_radios.enum.map fun q => x310RadioLink q.1 q.2
        spectrum := [⟨p.ul_freq_min, p.ul_freq_max, 0⟩,
                     ⟨p.dl_freq_min, p.dl_freq_max, 0⟩] } := by
  show requestSpectrum (requestSpectrum
      (List.foldl (fun req q => b210_nuc_pair p q.1 q.2 req)
        (List.foldl (fun req q => x310_node_pair p q.1 q.2 req) {} p.x310_radios.enum)
        p.b210_nodes.enum)
      p.ul_freq_min p.ul_freq_max 0) p.dl_freq_min p.dl_freq_max 0 = _
  rw [x310_foldl, b210_foldl]
  simp [requestSpectrum]

/-- C8: for every parameter set that passes validation, the run assembles
the request by invoking the rooftop-pair builder once per selected rooftop
radio in input order with indices 0, 1, 2, ..., then the fixed-endpoint
builder once per selected site in input order with indices restarting at 0,
and finally appends exactly two spectrum reservations built from the
validated uplink bounds and then the validated downlink bounds. -/
theorem assembly_order_and_spectrum (p : Params)
    (hv : checkFrequencyParams p = []) :
    runProfile p = Except.ok (assembleRequest p) ∧
    assembleRequest p =
      { nodes := (p.x310_radios.enum.flatMap fun q =>
                    [x310CompNode p q.1 q.2, x310RadioNode q.2])
                  ++ p.b210_nodes.enum.map fun q => b210NucNode p q.1 q.2
        links := p.x310_radios.enum.map fun q => x310RadioLink q.1 q.2
        spectrum := [⟨p.ul_freq_min, p.ul_freq_max, 0⟩,
                     ⟨p.dl_freq_min, p.dl_freq_max, 0⟩] } :=
  ⟨by simp [runProfile, hv], assembleRequest_closed_form p⟩

/-- Witness for C8 at the default parameter binding. -/
theorem assembly_order_and_spectrum_witness :
    runProfile defaultParams = Except.ok (assembleRequest defaultParams) ∧
    assembleRequest defaultParams =
      { nodes := (defaultParams.x310_radios.enum.flatMap fun q =>
                    [x310CompNode defaultParams q.1 q.2, x310RadioNode q.2])
                  ++ defaultParams.b210_nodes.enum.map fun q =>
                      b210NucNode defaultParams q.1 q.2
        links := defaultParams.x310_radios.enum.map fun q => x310RadioLink q.1 q.2
        spectrum := [⟨defaultParams.ul_freq_min, defaultParams.ul_freq_max, 0⟩,
                     ⟨defaultParams.dl_freq_min, defaultParams.dl_freq_max, 0⟩] } :=
  assembly_order_and_spectrum defaultParams (by with_unfolding_all decide)

/-- C9: every rooftop compute node, regardless of index and radio name, gets
the same static address 192.168.40.1 netmask 255.255.255.0 on its radio
interface, while the fixed-endpoint builder assigns no interface and no
address; consequently the only address appearing anywhere in an assembled
request is 192.168.40.1/255.255.255.0, duplicated across rooftop pairs. -/
theorem rooftop_static_address (p : Params) :
    (∀ idx x310_radio, (x310CompNode p idx x310_radio).interfaces =
        [⟨"usrp_if", [⟨"192.168.40.1", "255.255.255.0"⟩]⟩]) ∧
    (∀ idx b210_node, (b210NucNode p idx b210_node).interfaces = []) ∧
    (∀ n ∈ (assembleRequest p).nodes, ∀ i ∈ n.interfaces, ∀ a ∈ i.addresses,
      a = ⟨"192.168.40.1", "255.255.255.0"⟩) := by
  refine ⟨fun _ _ => rfl, fun _ _ => rfl, ?_⟩
  rw [assembleRequest_closed_form]
  intro n hn i hi a ha
  simp only [List.mem_append, List.mem_flatMap, List.mem_map, List.mem_cons,
    List.not_mem_nil, or_false] at hn
  rcases hn with ⟨q, _, h | h⟩ | ⟨q, _, h⟩
  · subst h
    simp only [x310CompNode, List.mem_singleton] at hi
    subst hi
    simpa using ha
  · subst h
    simp [x310RadioNode] at hi
  · subst h
    simp [b210NucNode] at hi

/-- Witness for C9 applying each part at the example selection: the rooftop
compute node at index 0, its radio interface and its address. -/
theorem rooftop_static_address_witness :
    (x310CompNode examplePairParams 0 ⟨"cellsdr1-browning"⟩).interfaces
      = [⟨"usrp_if", [⟨"192.168.40.1", "255.255.255.0"⟩]⟩] ∧
    (b210NucNode examplePairParams 0 ⟨"web"⟩).interfaces = [] ∧
    (⟨"192.168.40.1", "255.255.255.0"⟩ : IPv4Address)
      = ⟨"192.168.40.1", "255.255.255.0"⟩ :=
  ⟨(rooftop_static_address examplePairParams).1 0 ⟨"cellsdr1-browning"⟩,
   (rooftop_static_address examplePairParams).2.1 0 ⟨"web"⟩,
   (rooftop_static_address examplePairParams).2.2
     (x310CompNode examplePairParams 0 ⟨"cellsdr1-browning"⟩)
     (by with_unfolding_all decide)
     ⟨"usrp_if", [⟨"192.168.40.1", "255.255.255.0"⟩]⟩ (by decide)
     ⟨"192.168.40.1", "255.255.255.0"⟩ (by decide)⟩

/-- C10: for every parameter set that passes validation, both spectrum
reservations carry priority 0, the uplink range first and the downlink
range second. -/
theorem spectrum_priority_and_order (p : Params)
    (hv : checkFrequencyParams p = []) :
    runProfile p = Except.ok (assembleRequest p) ∧
    (assembleRequest p).spectrum.map SpectrumReservation.priority = [0, 0] ∧
    (assembleRequest p).spectrum =
      [⟨p.ul_freq_min, p.ul_freq_max, 0⟩, ⟨p.dl_freq_min, p.dl_freq_max, 0⟩] := by
  refine ⟨by simp [runProfile, hv], ?_, ?_⟩ <;> (rw [assembleRequest_closed_form]; try rfl)

/-- Witness for C10 at the default parameter binding. -/
theorem spectrum_priority_and_order_witness :
    runProfile defaultParams = Except.ok (assembleRequest defaultParams) ∧
    (assembleRequest defaultParams).spectrum.map SpectrumReservation.priority = [0, 0] ∧
    (assembleRequest defaultParams).spectrum =
      [⟨defaultParams.ul_freq_min, defaultParams.ul_freq_max, 0⟩,
       ⟨defaultParams.dl_freq_min, defaultParams.dl_freq_max, 0⟩] :=
  spectrum_priority_and_order defaultParams (by with_unfolding_all decide)

/-- C5: a validated parameter set selecting exactly the rooftop radio
"cellsdr1-browning" and exactly the fixed-endpoint site "web" yields exactly
one rooftop compute node, one radio node, one fixed-endpoint compute node
(in that order), one link and two spectrum reservations. -/
theorem single_pair_request (p : Params)
    (hv : checkFrequencyParams p = [])
    (hx : p.x310_radios = [⟨"cellsdr1-browning"⟩])
    (hb : p.b210_nodes = [⟨"web"⟩]) :
    runProfile p = Except.ok (assembleRequest p) ∧
    (assembleRequest p).nodes.map Node.name =
      ["cellsdr1-browning-comp", "cellsdr1-browning-x310", "b210-web-nuc2"] ∧
    (assembleRequest p).links.length = 1 ∧
    (assembleRequest p).spectrum.length = 2 := by
  refine ⟨by simp [runProfile, hv], ?_, ?_, ?_⟩ <;> rw [assembleRequest_closed_form] <;>
    simp [hx, hb, x310CompNode, x310RadioNode, b210NucNode]

/-- Witness for C5 at the spec's example selection with default bounds. -/
theorem single_pair_request_witness :
    runProfile examplePairParams = Except.ok (assembleRequest examplePairParams) ∧
    (assembleRequest examplePairParams).nodes.map Node.name =
      ["cellsdr1-browning-comp", "cellsdr1-browning-x310", "b210-web-nuc2"] ∧
    (assembleRequest examplePairParams).links.length = 1 ∧
    (assembleRequest examplePairParams).spectrum.length = 2 :=
  single_pair_request examplePairParams (by with_unfolding_all decide) rfl rfl

/-- C6: a validated parameter set with no selected rooftop radios and no
selected fixed-endpoint sites yields a request with no nodes, no links and
exactly two spectrum reservations. -/
theorem empty_selection_request (p : Params)
    (hv : checkFrequencyParams p = [])
    (hx : p.x310_radios = [])
    (hb : p.b210_nodes = []) :
    runProfile p = Except.ok (assembleRequest p) ∧
    (assembleRequest p).nodes = [] ∧
    (assembleRequest p).links = [] ∧
    (assembleRequest p).spectrum.length = 2 := by
  refine ⟨by simp [runProfile, hv], ?_, ?_, ?_⟩ <;> rw [assembleRequest_closed_form] <;>
    simp [hx, hb]

/-- Witness for C6 at the default parameter binding (empty selections). -/
theorem empty_selection_request_witness :
    runProfile defaultParams = Except.ok (assembleRequest defaultParams) ∧
    (assembleRequest defaultParams).nodes = [] ∧
    (assembleRequest defaultParams).links = [] ∧
    (assembleRequest defaultParams).spectrum.length = 2 :=
  empty_selection_request defaultParams (by with_unfolding_all decide) rfl rfl

/-- Membership in a conditional singleton list. -/
theorem mem_ite_singleton {α : Type} {c : Prop} [Decidable c] {x a : α} :
    x ∈ (if c then [a] else ([] : List α)) ↔ c ∧ x = a := by
  split_ifs with h <;> simp [h]

/-- The reported error records are exactly the errors of the violated
checks, each tagged with its own condition. -/
theorem mem_checkFrequencyParams (p : Params) (e : ParameterError) :
    e ∈ checkFrequencyParams p ↔
      ((p.ul_freq_min < 2500 ∨ p.ul_freq_min > 2570
          ∨ p.ul_freq_max < 2500 ∨ p.ul_freq_max > 2570) ∧ e = ulBandErr) ∨
      (p.ul_freq_max - p.ul_freq_min < 1 ∧ e = ulSepErr) ∨
      ((p.dl_freq_min < 2620 ∨ p.dl_freq_min > 2690
          ∨ p.dl_freq_max < 2620 ∨ p.dl_freq_max > 2690) ∧ e = dlBandErr) ∨
      (p.dl_freq_max - p.dl_freq_min < 1 ∧ e = dlSepErr) := by
  simp [checkFrequencyParams, List.mem_append, mem_ite_singleton, or_assoc]

/-- C1: for every bound parameter set, an uplink bound outside [2500, 2570]
makes validation report an error naming the fields ul_freq_min and
ul_freq_max, and a downlink bound outside [2620, 2690] makes validation
report an error naming the fields dl_freq_min and dl_freq_max. -/
theorem band_bound_errors (p : Params) :
    ((p.ul_freq_min < 2500 ∨ p.ul_freq_min > 2570
        ∨ p.ul_freq_max < 2500 ∨ p.ul_freq_max > 2570) →
      ∃ e ∈ checkFrequencyParams p,
        e.fields = ["ul_freq_min", "ul_freq_max"] ∧
        e.message = "Band 7 uplink frequencies must be between 2500 and 2570 MHz") ∧
    ((p.dl_freq_min < 2620 ∨ p.dl_freq_min > 2690
        ∨ p.dl_freq_max < 2620 ∨ p.dl_freq_max > 2690) →
      ∃ e ∈ checkFrequencyParams p,
        e.fields = ["dl_freq_min", "dl_freq_max"] ∧
        e.message = "Band 7 downlink frequencies must be between 2620 and 2690 MHz") := by
  constructor
  · intro h
    exact ⟨ulBandErr, (mem_checkFrequencyParams p ulBandErr).mpr (Or.inl ⟨h, rfl⟩),
      rfl, rfl⟩
  · intro h
    exact ⟨dlBandErr,
      (mem_checkFrequencyParams p dlBandErr).mpr (Or.inr (Or.inr (Or.inl ⟨h, rfl⟩))),
      rfl, rfl⟩

/-- Witness for C1 at a parameter set with one uplink and one downlink bound
out of band. -/
theorem band_bound_errors_witness :
    (∃ e ∈ checkFrequencyParams outOfBandParams,
      e.fields = ["ul_freq_min", "ul_freq_max"] ∧
      e.message = "Band 7 uplink frequencies must be between 2500 and 2570 MHz") ∧
    (∃ e ∈ checkFrequencyParams outOfBandParams,
      e.fields = ["dl_freq_min", "dl_freq_max"] ∧
      e.message = "Band 7 downlink frequencies must be between 2620 and 2690 MHz") :=
  ⟨(band_bound_errors outOfBandParams).1 (Or.inl (by with_unfolding_all decide)),
   (band_bound_errors outOfBandParams).2 (Or.inl (by with_unfolding_all decide))⟩

/-- C2: for each bound pair, the separation error naming that pair's two
fields is reported exactly when max minus min is less than 1 MHz; in
particular a separation of exactly 1 MHz passes the check. -/
theorem separation_errors (p : Params) :
    (ulSepErr ∈ checkFrequencyParams p ↔ p.ul_freq_max - p.ul_freq_min < 1) ∧
    (dlSepErr ∈ checkFrequencyParams p ↔ p.dl_freq_max - p.dl_freq_min < 1) := by
  constructor
  · rw [mem_checkFrequencyParams]
    constructor
    · rintro (⟨_, h⟩ | ⟨h, _⟩ | ⟨_, h⟩ | ⟨_, h⟩)
      · exact absurd h (by decide)
      · exact h
      · exact absurd h (by decide)
      · exact absurd h (by decide)
    · intro h
      exact Or.inr (Or.inl ⟨h, rfl⟩)
  · rw [mem_checkFrequencyParams]
    constructor
    · rintro (⟨_, h⟩ | ⟨_, h⟩ | ⟨_, h⟩ | ⟨h, _⟩)
      · exact absurd h (by decide)
      · exact absurd h (by decide)
      · exact absurd h (by decide)
      · exact h
    · intro h
      exact Or.inr (Or.inr (Or.inr ⟨h, rfl⟩))

/-- C3: every violated check contributes its own error record (the number of
records equals the number of violated checks and each violated check's error
is present), and when at least one error was reported the run stops with the
collected errors instead of assembling a request. -/
theorem errors_collected_and_gated (p : Params) :
    (checkFrequencyParams p).length =
        (if p.ul_freq_min < 2500 ∨ p.ul_freq_min > 2570
            ∨ p.ul_freq_max < 2500 ∨ p.ul_freq_max > 2570 then 1 else 0)
      + (if p.ul_freq_max - p.ul_freq_min < 1 then 1 else 0)
      + (if p.dl_freq_min < 2620 ∨ p.dl_freq_min > 2690
            ∨ p.dl_freq_max < 2620 ∨ p.dl_freq_max > 2690 then 1 else 0)
      + (if p.dl_freq_max - p.dl_freq_min < 1 then 1 else 0) ∧
    ((p.ul_freq_min < 2500 ∨ p.ul_freq_min > 2570
        ∨ p.ul_freq_max < 2500 ∨ p.ul_freq_max > 2570) →
      ulBandErr ∈ checkFrequencyParams p) ∧
    (p.ul_freq_max - p.ul_freq_min < 1 → ulSepErr ∈ checkFrequencyParams p) ∧
    ((p.dl_freq_min < 2620 ∨ p.dl_freq_min > 2690
        ∨ p.dl_freq_max < 2620 ∨ p.dl_freq_max > 2690) →
      dlBandErr ∈ checkFrequencyParams p) ∧
    (p.dl_freq_max - p.dl_freq_min < 1 → dlSepErr ∈ checkFrequencyParams p) ∧
    (checkFrequencyParams p ≠ [] →
      runProfile p = Except.error (checkFrequencyParams p)) := by
  refine ⟨?_, ?_, ?_, ?_, ?_, ?_⟩
  · unfold checkFrequencyParams
    split_ifs <;> simp
  · intro h
    exact (mem_checkFrequencyParams p ulBandErr).mpr (Or.inl ⟨h, rfl⟩)
  · intro h
    exact (mem_checkFrequencyParams p ulSepErr).mpr (Or.inr (Or.inl ⟨h, rfl⟩))
  · intro h
    exact (mem_checkFrequencyParams p dlBandErr).mpr
      (Or.inr (Or.inr (Or.inl ⟨h, rfl⟩)))
  · intro h
    exact (mem_checkFrequencyParams p dlSepErr).mpr
      (Or.inr (Or.inr (Or.inr ⟨h, rfl⟩)))
  · intro h
    unfold runProfile
    rw [if_neg (by simpa [List.isEmpty_iff] using h)]

/-- Witness for C3 at a parameter set violating all four checks at once. -/
theorem errors_collected_and_gated_witness :
    (checkFrequencyParams allBadParams).length = 4 ∧
    ulBandErr ∈ checkFrequencyParams allBadParams ∧
    ulSepErr ∈ checkFrequencyParams allBadParams ∧
    dlBandErr ∈ checkFrequencyParams allBadParams ∧
    dlSepErr ∈ checkFrequencyParams allBadParams ∧
    runProfile allBadParams = Except.error (checkFrequencyParams allBadParams) := by
  have h := errors_collected_and_gated allBadParams
  exact ⟨h.1.trans (by with_unfolding_all decide),
    h.2.1 (Or.inl (by with_unfolding_all decide)),
    h.2.2.1 (by with_unfolding_all decide),
    h.2.2.2.1 (Or.inl (by with_unfolding_all decide)),
    h.2.2.2.2.1 (by with_unfolding_all decide),
    h.2.2.2.2.2 (by with_unfolding_all decide)⟩

/-- Appending a fixed suffix to a string is injective. -/
theorem string_append_right_cancel {a b : String} (t : String)
    (h : a ++ t = b ++ t) : a = b := by
  apply String.ext
  have hd : a.data ++ t.data = b.data ++ t.data := by
    simpa [String.data_append] using congrArg String.data h
  exact List.append_cancel_right hd

/-- The last character of a string with a fixed nonempty suffix is the
suffix's last character. -/
theorem string_append_getLast (a s : String) (c : Char)
    (h : s.data.getLast? = some c) :
    (a ++ s).data.getLast? = some c := by
  rw [String.data_append, List.getLast?_append, h]
  rfl

/-- A rooftop compute-node name never collides with a radio-node name. -/
theorem comp_name_ne_x310_name (a b : String) : a ++ "-comp" ≠ b ++ "-x310" := by
  intro h
  have h1 : (a ++ "-comp").data.getLast? = some 'p' :=
    string_append_getLast a "-comp" 'p' (by decide)
  have h2 : (b ++ "-x310").data.getLast? = some '0' :=
    string_append_getLast b "-x310" '0' (by decide)
  rw [h, h2] at h1
  exact absurd h1 (by decide)

/-- A rooftop compute-node name never collides with a fixed-endpoint
compute-node name. -/
theorem comp_name_ne_nuc_name (a b : String) :
    a ++ "-comp" ≠ "b210-" ++ b ++ "-nuc2" := by
  intro h
  have h1 : (a ++ "-comp").data.getLast? = some 'p' :=
    string_append_getLast a "-comp" 'p' (by decide)
  have h2 : (("b210-" ++ b) ++ "-nuc2").data.getLast? = some '2' :=
    string_append_getLast ("b210-" ++ b) "-nuc2" '2' (by decide)
  rw [h, h2] at h1
  exact absurd h1 (by decide)

/-- A radio-node name never collides with a fixed-endpoint compute-node
name. -/
theorem x310_name_ne_nuc_name (a b : String) :
    a ++ "-x310" ≠ "b210-" ++ b ++ "-nuc2" := by
  intro h
  have h1 : (a ++ "-x310").data.getLast? = some '0' :=
    string_append_getLast a "-x310" '0' (by decide)
  have h2 : (("b210-" ++ b) ++ "-nuc2").data.getLast? = some '2' :=
    string_append_getLast ("b210-" ++ b) "-nuc2" '2' (by decide)
  rw [h, h2] at h1
  exact absurd h1 (by decide)

/-- The fixed-endpoint naming convention is injective in the aggregate id. -/
theorem nuc_name_injective :
    Function.Injective (fun s => "b210-" ++ s ++ "-nuc2") := by
  intro a b h
  have h1 : "b210-" ++ a = "b210-" ++ b :=
    string_append_right_cancel "-nuc2" h
  apply String.ext
  have hd := congrArg String.data h1
  simpa [String.data_append] using hd

/-- Distinct rooftop radio names and distinct aggregate ids yield pairwise
distinct node names under the three naming conventions of the builders. -/
theorem names_nodup_aux (xs bs : List String) (hx : xs.Nodup) (hb : bs.Nodup) :
    (xs.flatMap (fun s => [s ++ "-comp", s ++ "-x310"])
      ++ bs.map (fun s => "b210-" ++ s ++ "-nuc2")).Nodup := by
  rw [List.nodup_append]
  refine ⟨?_, hb.map nuc_name_injective, ?_⟩
  · rw [List.nodup_flatMap]
    constructor
    · intro s _
      simp [comp_name_ne_x310_name s s]
    · refine hx.imp fun hab => ?_
      intro x hxa hxb
      simp only [List.mem_cons, List.not_mem_nil, or_false] at hxa hxb
      rcases hxa with rfl | rfl <;> rcases hxb with h | h
      · exact hab (string_append_right_cancel "-comp" h)
      · exact comp_name_ne_x310_name _ _ h
      · exact comp_name_ne_x310_name _ _ h.symm
      · exact hab (string_append_right_cancel "-x310" h)
  · intro x hx1 hx2
    rw [List.mem_flatMap] at hx1
    rcases hx1 with ⟨s, _, hs⟩
    rw [List.mem_map] at hx2
    rcases hx2 with ⟨t, _, ht⟩
    simp only [List.mem_cons, List.not_mem_nil, or_false] at hs
    rcases hs with rfl | rfl
    · exact comp_name_ne_nuc_name s t ht.symm
    · exact x310_name_ne_nuc_name s t ht.symm

/-- The node names contributed by the rooftop loop, independent of the
enumeration start index. -/
theorem x310_names_enumFrom (p : Params) (l : List X310Radio) :
    ∀ n : Nat,
      ((l.enumFrom n).flatMap fun q =>
          [x310CompNode p q.1 q.2, x310RadioNode q.2]).map Node.name
        = (l.map X310Radio.radio_name).flatMap fun s =>
            [s ++ "-comp", s ++ "-x310"] := by
  induction l with
  | nil => intro n; rfl
  | cons r l ih =>
    intro n
    simp only [List.enumFrom_cons, List.flatMap_cons, List.map_append, List.map_cons,
      List.map_nil, ih]
    rfl

/-- The node names contributed by the fixed-endpoint loop, independent of
the enumeration start index. -/
theorem b210_names_enumFrom (p : Params) (l : List B210Node) :
    ∀ n : Nat,
      ((l.enumFrom n).map fun q => b210NucNode p q.1 q.2).map Node.name
        = (l.map B210Node.aggregate_id).map fun s => "b210-" ++ s ++ "-nuc2" := by
  induction l with
  | nil => intro n; rfl
  | cons b l ih =>
    intro n
    simp only [List.enumFrom_cons, List.map_cons, ih]
    rfl

/-- Counterexample to C4 as stated: a parameter set that passes validation
but selects the same rooftop radio twice produces duplicate node names. -/
theorem node_names_dup_counterexample :
    checkFrequencyParams dupRadioParams = [] ∧
    ¬ ((assembleRequest dupRadioParams).nodes.map Node.name).Nodup := by
  constructor
  · with_unfolding_all decide
  · with_unfolding_all decide

/-- C4 amended: for every parameter set that passes validation and whose
selected rooftop radio names are pairwise distinct and whose selected
fixed-endpoint aggregate ids are pairwise distinct, all node names in the
produced request graph are pairwise distinct (rooftop entries contribute
names radio_name-comp and radio_name-x310; fixed-endpoint entries contribute
b210-aggregate_id-nuc2). -/
theorem node_names_nodup (p : Params)
    (_hv : checkFrequencyParams p = [])
    (hx : (p.x310_radios.map X310Radio.radio_name).Nodup)
    (hb : (p.b210_nodes.map B210Node.aggregate_id).Nodup) :
    ((assembleRequest p).nodes.map Node.name).Nodup := by
  rw [assembleRequest_closed_form]
  show (((p.x310_radios.enum.flatMap fun q =>
        [x310CompNode p q.1 q.2, x310RadioNode q.2])
      ++ p.b210_nodes.enum.map fun q => b210NucNode p q.1 q.2).map Node.name).Nodup
  rw [List.map_append, List.enum_eq_enumFrom, List.enum_eq_enumFrom,
    x310_names_enumFrom, b210_names_enumFrom]
  exact names_nodup_aux _ _ hx hb

/-- Witness for the amended C4 at the spec's example selection. -/
theorem node_names_nodup_witness :
    ((assembleRequest examplePairParams).nodes.map Node.name).Nodup :=
  node_names_nodup examplePairParams (by with_unfolding_all decide)
    (by decide) (by decide)

/-- Pointwise relations lift to flatMap over a common list. -/
theorem forall2_flatMap_same {α β γ : Type} (R : β → γ → Prop) (l : List α)
    (f : α → List β) (g : α → List γ)
    (h : ∀ a ∈ l, List.Forall₂ R (f a) (g a)) :
    List.Forall₂ R (l.flatMap f) (l.flatMap g) := by
  induction l with
  | nil => exact List.Forall₂.nil
  | cons a l ih =>
    rw [List.flatMap_cons, List.flatMap_cons]
    exact List.rel_append (h a (List.mem_cons_self a l))
      (ih fun b hb => h b (List.mem_cons_of_mem a hb))

/-- Pointwise relations lift to map over a common list. -/
theorem forall2_map_same {α β γ : Type} (R : β → γ → Prop) (l : List α)
    (f : α → β) (g : α → γ) (h : ∀ a ∈ l, R (f a) (g a)) :
    List.Forall₂ R (l.map f) (l.map g) := by
  induction l with
  | nil => exact List.Forall₂.nil
  | cons a l ih =>
    rw [List.map_cons, List.map_cons]
    exact List.Forall₂.cons (h a (List.mem_cons_self a l))
      (ih fun b hb => h b (List.mem_cons_of_mem a hb))

/-- C7: for every parameter set that passes validation, the run with
include_srslte_src set differs from the run with it cleared only in
storage mounts: links, spectrum and every node attribute other than the
mount list coincide, the cleared run mounts nothing, and the set run mounts
exactly one blockstore (dataset srslte-src-v19 at /opt/srslte) on each
compute node (the nodes carrying a disk image) and none on radio nodes. -/
theorem include_src_adds_one_mount_per_compute_node (p : Params)
    (_hv : checkFrequencyParams p = []) :
    (assembleRequest { p with include_srslte_src := true }).links
      = (assembleRequest { p with include_srslte_src := false }).links ∧
    (assembleRequest { p with include_srslte_src := true }).spectrum
      = (assembleRequest { p with include_srslte_src := false }).spectrum ∧
    (assembleRequest { p with include_srslte_src := true }).nodes.map
        (fun n => { n with blockstores := [] })
      = (assembleRequest { p with include_srslte_src := false }).nodes.map
        (fun n => { n with blockstores := [] }) ∧
    (∀ n ∈ (assembleRequest { p with include_srslte_src := false }).nodes,
      n.blockstores = []) ∧
    List.Forall₂ (fun nt nf =>
        (nf.disk_image.isSome = true →
          ∃ bsname, nt.blockstores
            = [⟨bsname, "/opt/srslte", GLOBALS.SRSLTE_SRC_DS⟩]) ∧
        (nf.disk_image = none → nt.blockstores = []))
      (assembleRequest { p with include_srslte_src := true }).nodes
      (assembleRequest { p with include_srslte_src := false }).nodes := by
  rw [assembleRequest_closed_form, assembleRequest_closed_form]
  refine ⟨rfl, rfl, ?_, ?_, ?_⟩
  · rw [List.map_append, List.map_append, List.map_flatMap, List.map_flatMap,
      List.map_map, List.map_map]
    rfl
  · intro n hn
    simp only [List.mem_append, List.mem_flatMap, List.mem_map, List.mem_cons,
      List.not_mem_nil, or_false] at hn
    rcases hn with ⟨q, _, h | h⟩ | ⟨q, _, h⟩ <;> subst h <;> rfl
  · refine List.rel_append (forall2_flatMap_same _ _ _ _ fun q _ => ?_)
      (forall2_map_same _ _ _ _ fun q _ => ?_)
    · refine List.Forall₂.cons ⟨fun _ => ⟨"bs-comp-" ++ toString q.1, rfl⟩, ?_⟩
        (List.Forall₂.cons ⟨fun h => ?_, fun _ => rfl⟩ List.Forall₂.nil)
      · intro h
        exact absurd h (by simp [x310CompNode])
      · exact absurd h (by simp [x310RadioNode])
    · exact ⟨fun _ => ⟨"bs-nuc-" ++ toString q.1, rfl⟩, fun h => absurd h (by simp [b210NucNode])⟩

/-- Witness for C7 at the spec's example selection. -/
theorem include_src_adds_one_mount_per_compute_node_witness :
    (assembleRequest { examplePairParams with include_srslte_src := true }).links
      = (assembleRequest { examplePairParams with include_srslte_src := false }).links ∧
    (assembleRequest { examplePairParams with include_srslte_src := true }).spectrum
      = (assembleRequest { examplePairParams with include_srslte_src := false }).spectrum ∧
    (assembleRequest { examplePairParams with include_srslte_src := true }).nodes.map
        (fun n => { n with blockstores := [] })
      = (assembleRequest { examplePairParams with include_srslte_src := false }).nodes.map
        (fun n => { n with blockstores := [] }) ∧
    (∀ n ∈ (assembleRequest { examplePairParams with include_srslte_src := false }).nodes,
      n.blockstores = []) ∧
    List.Forall₂ (fun nt nf =>
        (nf.disk_image.isSome = true →
          ∃ bsname, nt.blockstores
            = [⟨bsname, "/opt/srslte", GLOBALS.SRSLTE_SRC_DS⟩]) ∧
        (nf.disk_image = none → nt.blockstores = []))
      (assembleRequest { examplePairParams with include_srslte_src := true }).nodes
      (assembleRequest { examplePairParams with include_srslte_src := false }).nodes :=
  include_src_adds_one_mount_per_compute_node examplePairParams
    (by with_unfolding_all decide)

end Profile
